import Mathlib

/-!
Formal model of PuTTY's SSH connection-layer channel abstraction
(src/sshchan.h): the ChannelVtable default policies, the zombie channel,
the SshChannelVtable outgoing-request signatures, FIFO correlation of
want-reply requests with their replies, the open-failure lifecycle, and
the main channel's terminal-resize buffering.

The header declares the interfaces and documents their contracts; the
function bodies live in other translation units.  Where a body is absent,
the corresponding Lean definition is modelled from the spec (and from the
header's own comments), and is marked as such in its doc comment.
-/

namespace SshChan

/-! ### Default ChannelVtable policies -/

/-- Modelled from the spec: the body of chan_no_eager_close is not under
src/ (src/sshchan.h line 78 only declares it); per the spec and the
header comment it is the default want_close policy of not closing until
both directions have had an EOF. -/
def chan_no_eager_close (sent_local_eof rcvd_remote_eof : Bool) : Bool :=
  sent_local_eof && rcvd_remote_eof

/-- Modelled from the spec: the body of chan_no_exit_status is not under
src/; it is the default implementation that refuses the exit-status
channel request for any status value. -/
def chan_no_exit_status (_status : Int) : Bool :=
  false

/-- Modelled from the spec: the body of chan_no_exit_signal is not under
src/; it is the default implementation that refuses the exit-signal
channel request for any signal name, core-dumped flag and message. -/
def chan_no_exit_signal (_signame : String) (_core_dumped : Bool) (_msg : String) : Bool :=
  false

/-- Modelled from the spec: the body of chan_no_exit_signal_numeric is not
under src/; it is the default implementation that refuses the numeric
exit-signal channel request for any signal number, core-dumped flag and
message. -/
def chan_no_exit_signal_numeric (_signum : Int) (_core_dumped : Bool) (_msg : String) : Bool :=
  false

/-- The fatal condition a channel endpoint can raise when a contract of
the ChannelVtable is violated. -/
inductive ChanError
  | contractViolation
deriving DecidableEq

/-- Modelled from the spec: the body of chan_no_request_response is not
under src/; it is the default for endpoints that never have an
outstanding want-reply request, so any call is a contract violation that
is defensively detected and reported as fatal to the channel, never
silently ignored. -/
def chan_no_request_response (_success : Bool) : Except ChanError Unit :=
  Except.error ChanError.contractViolation

/-- Modelled from the spec: the body of zombiechan_new is not under src/;
per the header comment (src/sshchan.h lines 93-96) the zombie channel's
want_close method always answers yes, regardless of whether local and/or
remote EOF have been seen - indeed, even if neither has. -/
def zombiechan_want_close (_sent_local_eof _rcvd_remote_eof : Bool) : Bool :=
  true

/-! ### Open-failure lifecycle -/

/-- Release state of one Channel endpoint, together with the log lines it
has emitted. -/
structure EndpointState where
  released : Bool
  logged : List String
deriving DecidableEq

/-- The failure a release operation can report. -/
inductive ReleaseError
  | doubleRelease
deriving DecidableEq

/-- Modelled from the spec: the bodies behind chan_open_failed are not
under src/; per the header comment (src/sshchan.h lines 16-18) the
open_failed method must not free the Channel structure - the client will
call the free method separately - but it may do logging or other local
cleanup. -/
def chan_open_failed (st : EndpointState) (error_text : String) : EndpointState :=
  { st with logged := st.logged ++ [error_text] }

/-- Modelled from the spec: the free method releases the endpoint's
resources; releasing an endpoint that has already been released is a
double release, and is reported as such. -/
def chan_free (st : EndpointState) : Except ReleaseError EndpointState :=
  if st.released then Except.error ReleaseError.doubleRelease
  else Except.ok { st with released := true }

/-! ### Outgoing channel-request signatures (SshChannelVtable) -/

/-- Signature facts of one outgoing channel-request operation of
SshChannelVtable, read off src/sshchan.h lines 134-155: whether the
operation's C prototype takes a want_reply flag, and whether it returns
int rather than void. -/
structure SshReqOpSig where
  name : String
  hasWantReply : Bool
  returnsInt : Bool
deriving DecidableEq

/-- void (*request_x11_forwarding)(SshChannel *c, int want_reply, ...) -/
def request_x11_forwarding_sig : SshReqOpSig :=
  ⟨"request_x11_forwarding", true, false⟩

/-- void (*request_agent_forwarding)(SshChannel *c, int want_reply) -/
def request_agent_forwarding_sig : SshReqOpSig :=
  ⟨"request_agent_forwarding", true, false⟩

/-- void (*request_pty)(SshChannel *c, int want_reply, Conf *conf, int w, int h) -/
def request_pty_sig : SshReqOpSig :=
  ⟨"request_pty", true, false⟩

/-- int (*send_env_var)(SshChannel *c, int want_reply, const char *var, const char *value) -/
def send_env_var_sig : SshReqOpSig :=
  ⟨"send_env_var", true, true⟩

/-- void (*start_shell)(SshChannel *c, int want_reply) -/
def start_shell_sig : SshReqOpSig :=
  ⟨"start_shell", true, false⟩

/-- void (*start_command)(SshChannel *c, int want_reply, const char *command) -/
def start_command_sig : SshReqOpSig :=
  ⟨"start_command", true, false⟩

/-- int (*start_subsystem)(SshChannel *c, int want_reply, const char *subsystem) -/
def start_subsystem_sig : SshReqOpSig :=
  ⟨"start_subsystem", true, true⟩

/-- int (*send_serial_break)(SshChannel *c, int want_reply, int length) -/
def send_serial_break_sig : SshReqOpSig :=
  ⟨"send_serial_break", true, true⟩

/-- int (*send_signal)(SshChannel *c, int want_reply, const char *signame) -/
def send_signal_sig : SshReqOpSig :=
  ⟨"send_signal", true, true⟩

/-- void (*send_terminal_size_change)(SshChannel *c, int w, int h) -/
def send_terminal_size_change_sig : SshReqOpSig :=
  ⟨"send_terminal_size_change", false, false⟩

/-- void (*hint_channel_is_simple)(SshChannel *c) -/
def hint_channel_is_simple_sig : SshReqOpSig :=
  ⟨"hint_channel_is_simple", false, false⟩

/-- All outgoing channel-request operations of SshChannelVtable, in the
order they are declared in src/sshchan.h lines 134-155. -/
def allRequestOps : List SshReqOpSig :=
  [request_x11_forwarding_sig, request_agent_forwarding_sig, request_pty_sig,
   send_env_var_sig, start_shell_sig, start_command_sig, start_subsystem_sig,
   send_serial_break_sig, send_signal_sig, send_terminal_size_change_sig,
   hint_channel_is_simple_sig]

/-! ### Reply correlation model -/

/-- Per-handle multiplexer bookkeeping: for every channel handle, the FIFO
queue of outstanding want-reply request ids, and the sequence of replies
already delivered to that handle's request_response, in delivery order. -/
structure MuxState where
  pending : Nat → List Nat
  delivered : Nat → List Nat

/-- The multiplexer state before any request has been issued. -/
def muxInit : MuxState :=
  ⟨fun _ => [], fun _ => []⟩

/-- The wire-level events relevant to reply correlation: issuing an
outgoing channel request on a handle (with or without want_reply), and
the arrival of a success/failure reply on a handle. -/
inductive MuxEvent
  | issue (h rid : Nat) (wantReply : Bool)
  | reply (h : Nat)
deriving DecidableEq

/-- Modelled from the spec: the connection layer's pending-request
machinery is not under src/; per the header comment (src/sshchan.h lines
120-123) each want-reply request causes a callback to
chan_request_response when the result is available, and per the spec
replies on one handle resolve strictly FIFO.  Issuing with want_reply
appends to the handle's pending queue; a reply resolves the oldest
outstanding request on its handle and delivers it to request_response. -/
def muxStep (st : MuxState) : MuxEvent → MuxState
  | MuxEvent.issue h rid wantReply =>
      if wantReply then
        { st with
          pending := fun h2 => if h2 = h then st.pending h2 ++ [rid] else st.pending h2 }
      else st
  | MuxEvent.reply h =>
      match st.pending h with
      | [] => st
      | rid :: rest =>
          { pending := fun h2 => if h2 = h then rest else st.pending h2,
            delivered := fun h2 => if h2 = h then st.delivered h2 ++ [rid] else st.delivered h2 }

/-- Run the multiplexer over a sequence of wire events. -/
def muxRun (st : MuxState) (es : List MuxEvent) : MuxState :=
  es.foldl muxStep st

/-- The request ids an event contributes to handle h's issue order: only
an issue event on h itself with want_reply set contributes. -/
def issueContribution (h : Nat) : MuxEvent → List Nat
  | MuxEvent.issue h2 rid wantReply =>
      if h = h2 then (if wantReply then [rid] else []) else []
  | MuxEvent.reply _ => []

/-- The want-reply request ids issued on handle h, in issue order. -/
def issuedOn (h : Nat) : List MuxEvent → List Nat
  | [] => []
  | e :: t => issueContribution h e ++ issuedOn h t

/-- Modelled from the spec: invoking an outgoing channel-request operation
produces a pending-request entry exactly when the operation's prototype
carries a want_reply flag; operations without the flag never enter the
reply cycle. -/
def opIssueEvents (op : SshReqOpSig) (wantReply : Bool) (h rid : Nat) : List MuxEvent :=
  if op.hasWantReply then [MuxEvent.issue h rid wantReply] else []

/-- Modelled from the spec: for the int-returning outgoing requests, the
int result reports synchronously whether the SSH protocol in use supports
the request at all (src/sshchan.h lines 125-126); on protocol refusal the
result is false, nothing is queued - so no reply cycle follows - and the
multiplexer state is untouched, so the refusal is non-fatal. -/
def performIntRequest (op : SshReqOpSig) (protoSupports wantReply : Bool)
    (h rid : Nat) (st : MuxState) : Bool × MuxState :=
  if protoSupports then (true, muxRun st (opIssueEvents op wantReply h rid))
  else (false, st)

/-! ### MainChannel terminal-resize model -/

/-- The part of the main channel's state that terminal resizing touches:
whether the PTY request has been granted, the buffered most-recent resize
awaiting the grant, and the sequence of size-change messages actually
sent to the peer, in order. -/
structure MainchanState where
  ptyGranted : Bool
  pendingSize : Option (Int × Int)
  sentSizes : List (Int × Int)
deriving DecidableEq

/-- The main channel before the PTY has been granted and before any
resize has been requested. -/
def mainchanInit : MainchanState :=
  ⟨false, none, []⟩

/-- Modelled from the spec: the body of mainchan_terminal_size is not
under src/; per the spec, if the PTY has not yet been granted the latest
requested size is buffered, and once granted every resize is forwarded
immediately via send_terminal_size_change. -/
def mainchan_terminal_size (st : MainchanState) (w h : Int) : MainchanState :=
  if st.ptyGranted then { st with sentSizes := st.sentSizes ++ [(w, h)] }
  else { st with pendingSize := some (w, h) }

/-- Modelled from the spec: when the PTY request is granted, the buffered
most-recent size, if any, is sent exactly once, immediately after the
grant. -/
def mainchan_pty_granted (st : MainchanState) : MainchanState :=
  match st.pendingSize with
  | some s => ⟨true, none, st.sentSizes ++ [s]⟩
  | none => { st with ptyGranted := true }

/-- Events driving the main channel's resize state machine. -/
inductive MCEvent
  | resize (w h : Int)
  | ptyGrant
deriving DecidableEq

/-- One step of the main channel's resize state machine. -/
def mcStep (st : MainchanState) : MCEvent → MainchanState
  | MCEvent.resize w h => mainchan_terminal_size st w h
  | MCEvent.ptyGrant => mainchan_pty_granted st

/-- Run the main channel's resize state machine over an event list. -/
def mcRun (st : MainchanState) (es : List MCEvent) : MainchanState :=
  es.foldl mcStep st

/-- The resize events for a list of requested sizes, in request order. -/
def resizes (l : List (Int × Int)) : List MCEvent :=
  l.map fun p => MCEvent.resize p.1 p.2

/-- The last element of a list, or the default d when the list is empty. -/
def lastD (d : Option (Int × Int)) : List (Int × Int) → Option (Int × Int)
  | [] => d
  | p :: t => lastD (some p) t

/-! ### Embedded C declaration shapes -/

/-- The shapes of C types that appear in the declarations we embed. -/
inductive CType
  | void
  | ptrTo (target : String)
  | funPtrTo (typedefName : String)
deriving DecidableEq

/-- A C function declaration: its name, return type and parameter types. -/
structure CFunDecl where
  name : String
  ret : CType
  params : List CType
deriving DecidableEq

/-- Embedded from src/sshchan.h lines 204-205:
void mainchan_get_specials(mainchan *mc, add_special_fn_t add_special, void *ctx); -/
def mainchan_get_specials_decl : CFunDecl :=
  { name := "mainchan_get_specials",
    ret := CType.void,
    params := [CType.ptrTo "mainchan", CType.funPtrTo "add_special_fn_t",
               CType.ptrTo "void"] }

/-- A declaration returns a value (of any kind) by value exactly when its
return type is not void. -/
def returnsByValue (d : CFunDecl) : Bool :=
  match d.ret with
  | CType.void => false
  | _ => true

/-- A declaration takes a callback exactly when one of its parameters is a
function pointer. -/
def takesCallback (d : CFunDecl) : Bool :=
  d.params.any fun t =>
    match t with
    | CType.funPtrTo _ => true
    | _ => false

end SshChan

namespace SshChan

/-! ### Theorems: default policies -/

/-- C2: the default close policy chan_no_eager_close returns true if and
only if both of its flags are true; in particular its full truth table is
want_close(false,false)=false, want_close(true,false)=false,
want_close(false,true)=false, want_close(true,true)=true. -/
theorem chan_no_eager_close_truth_table :
    chan_no_eager_close false false = false ∧
    chan_no_eager_close true false = false ∧
    chan_no_eager_close false true = false ∧
    chan_no_eager_close true true = true ∧
    (∀ x y, chan_no_eager_close x y = true ↔ (x = true ∧ y = true)) := by
  decide

/-- C3: the zombie channel's want_close returns true for every combination
of the sent_local_eof and rcvd_remote_eof arguments, including when
neither EOF has occurred. -/
theorem zombiechan_want_close_always_true :
    ∀ x y, zombiechan_want_close x y = true := by
  decide

/-- C6: the default refuse-all request handlers chan_no_exit_status,
chan_no_exit_signal and chan_no_exit_signal_numeric return false for
every input. -/
theorem default_handlers_refuse_all :
    (∀ status, chan_no_exit_status status = false) ∧
    (∀ signame core_dumped msg, chan_no_exit_signal signame core_dumped msg = false) ∧
    (∀ signum core_dumped msg,
      chan_no_exit_signal_numeric signum core_dumped msg = false) :=
  ⟨fun _ => rfl, fun _ _ _ => rfl, fun _ _ _ => rfl⟩

/-- C7: under the default policy chan_no_request_response, every
invocation of request_response - with either success value - is detected
and reported as a contract violation fatal to the channel; it never
returns a silent success. -/
theorem chan_no_request_response_contract_violation :
    ∀ success, chan_no_request_response success = Except.error ChanError.contractViolation :=
  fun _ => rfl

/-- C4: open_failed never itself releases the Channel endpoint - the
released flag is unchanged - and a subsequent explicit free on a
not-yet-released endpoint succeeds, with no double release and no
use-after-release. -/
theorem open_failed_does_not_release (st : EndpointState) (error_text : String) :
    (chan_open_failed st error_text).released = st.released ∧
    (st.released = false →
      chan_free (chan_open_failed st error_text) =
        Except.ok ⟨true, st.logged ++ [error_text]⟩) := by
  refine ⟨rfl, fun h => ?_⟩
  simp [chan_open_failed, chan_free, h]

/-- Witness for open_failed_does_not_release at a concrete endpoint and
error text. -/
theorem open_failed_does_not_release_witness :
    (chan_open_failed ⟨false, []⟩ "administratively prohibited").released = false ∧
    chan_free (chan_open_failed ⟨false, []⟩ "administratively prohibited") =
      Except.ok ⟨true, ["administratively prohibited"]⟩ :=
  ⟨(open_failed_does_not_release ⟨false, []⟩ "administratively prohibited").1,
   (open_failed_does_not_release ⟨false, []⟩ "administratively prohibited").2 rfl⟩

/-! ### Theorems: reply correlation -/

/-- Helper: running any event sequence extends a handle's delivered ++
pending lists by exactly the want-reply requests issued on that handle,
in issue order. -/
theorem muxRun_correlation (es : List MuxEvent) (st : MuxState) (h : Nat) :
    (muxRun st es).delivered h ++ (muxRun st es).pending h =
      st.delivered h ++ st.pending h ++ issuedOn h es := by
  induction es generalizing st with
  | nil => simp [muxRun, issuedOn]
  | cons e t ih =>
    have hrun : muxRun st (e :: t) = muxRun (muxStep st e) t := rfl
    have hstep : (muxStep st e).delivered h ++ (muxStep st e).pending h =
        st.delivered h ++ st.pending h ++ issueContribution h e := by
      cases e with
      | issue h2 rid wr =>
        cases wr with
        | false => simp [muxStep, issueContribution]
        | true =>
          by_cases hh : h = h2
          · subst hh
            simp [muxStep, issueContribution, List.append_assoc]
          · simp [muxStep, issueContribution, hh]
      | reply h2 =>
        cases hp : st.pending h2 with
        | nil => simp [muxStep, hp, issueContribution]
        | cons rid rest =>
          by_cases hh : h = h2
          · subst hh
            simp [muxStep, hp, issueContribution, List.append_assoc]
          · simp [muxStep, hp, issueContribution, hh]
    rw [hrun, ih, hstep]
    simp [issuedOn, List.append_assoc]

/-- Helper: a request id in the issue order of handle h comes from an
issue event on h with want_reply set. -/
theorem mem_issuedOn {h rid : Nat} {es : List MuxEvent}
    (hm : rid ∈ issuedOn h es) : MuxEvent.issue h rid true ∈ es := by
  induction es with
  | nil => simp [issuedOn] at hm
  | cons e t ih =>
    rw [issuedOn] at hm
    rcases List.mem_append.mp hm with h1 | h2
    · cases e with
      | issue h2 rid2 wr =>
        by_cases hh : h = h2
        · subst hh
          cases wr with
          | false => simp [issueContribution] at h1
          | true =>
            simp [issueContribution] at h1
            subst h1
            exact List.mem_cons_self _ _
        · simp [issueContribution, hh] at h1
      | reply h2 => simp [issueContribution] at h1
    · exact List.mem_cons_of_mem _ (ih h2)

/-- C1: for every channel handle, replies to want-reply requests are
delivered to request_response in exactly the order the requests were
issued on that handle: after any event sequence - traffic on other
channels freely interleaved - the replies delivered on a handle, followed
by its still-pending requests, equal its issued requests in issue order,
so the delivered replies are an order-preserving initial segment of the
issue order. -/
theorem request_response_fifo_order (es : List MuxEvent) (h : Nat) :
    (muxRun muxInit es).delivered h ++ (muxRun muxInit es).pending h =
      issuedOn h es := by
  have hinv := muxRun_correlation es muxInit h
  simpa [muxInit] using hinv

/-- C10: send_terminal_size_change and hint_channel_is_simple carry no
want-reply flag in their src/sshchan.h prototypes, invoking either leaves
the multiplexer state untouched, and every reply delivered to
request_response stems from an issue event with want_reply true - so
invoking either operation never causes a later request_response callback
on the associated Channel endpoint. -/
theorem no_want_reply_no_request_response :
    send_terminal_size_change_sig.hasWantReply = false ∧
    hint_channel_is_simple_sig.hasWantReply = false ∧
    (∀ wantReply h rid st,
      muxRun st (opIssueEvents send_terminal_size_change_sig wantReply h rid) = st) ∧
    (∀ wantReply h rid st,
      muxRun st (opIssueEvents hint_channel_is_simple_sig wantReply h rid) = st) ∧
    (∀ es h rid, rid ∈ (muxRun muxInit es).delivered h →
      MuxEvent.issue h rid true ∈ es) := by
  refine ⟨rfl, rfl, fun _ _ _ _ => rfl, fun _ _ _ _ => rfl, fun es h rid hm => ?_⟩
  have hinv := muxRun_correlation es muxInit h
  simp only [muxInit, List.nil_append] at hinv
  exact mem_issuedOn (hinv ▸ List.mem_append_left _ hm)

/-- Witness for no_want_reply_no_request_response on a concrete trace. -/
theorem no_want_reply_no_request_response_witness :
    5 ∈ (muxRun muxInit [MuxEvent.issue 0 5 true, MuxEvent.reply 0]).delivered 0 ∧
    MuxEvent.issue 0 5 true ∈ [MuxEvent.issue 0 5 true, MuxEvent.reply 0] :=
  ⟨by decide, no_want_reply_no_request_response.2.2.2.2
      [MuxEvent.issue 0 5 true, MuxEvent.reply 0] 0 5 (by decide)⟩

/-- C8: among the outgoing channel-request operations of SshChannelVtable,
exactly send_env_var, start_subsystem, send_serial_break and send_signal
return int; the int result synchronously equals whether the negotiated
protocol supports the request, and on protocol refusal the call returns
false with the multiplexer state unchanged - no reply cycle is started
and nothing fatal happens to the channel. -/
theorem int_requests_signal_protocol_refusal :
    (allRequestOps.filter (fun op => op.returnsInt)).map SshReqOpSig.name =
      ["send_env_var", "start_subsystem", "send_serial_break", "send_signal"] ∧
    (∀ op protoSupports wantReply h rid st,
      (performIntRequest op protoSupports wantReply h rid st).1 = protoSupports) ∧
    (∀ op wantReply h rid st,
      performIntRequest op false wantReply h rid st = (false, st)) := by
  refine ⟨rfl, fun op ps wr h rid st => ?_, fun op wr h rid st => rfl⟩
  cases ps <;> rfl

/-! ### Theorems: MainChannel resize buffering -/

/-- Helper: lastD of a list with one element appended is that element. -/
theorem lastD_append_singleton (d : Option (Int × Int)) (l : List (Int × Int))
    (p : Int × Int) : lastD d (l ++ [p]) = some p := by
  induction l generalizing d with
  | nil => rfl
  | cons q t ih => exact ih (some q)

/-- Helper: before the PTY grant, a run of resize events sends nothing,
stays ungranted, and buffers only the most recent requested size. -/
theorem mcRun_resizes (l : List (Int × Int)) (st : MainchanState)
    (hg : st.ptyGranted = false) :
    mcRun st (resizes l) = ⟨false, lastD st.pendingSize l, st.sentSizes⟩ := by
  induction l generalizing st with
  | nil =>
    cases st
    simp_all [mcRun, resizes, lastD]
  | cons p t ih =>
    have hstep : mcRun st (resizes (p :: t)) =
        mcRun (mainchan_terminal_size st p.1 p.2) (resizes t) := rfl
    have h1 : mainchan_terminal_size st p.1 p.2 =
        ⟨false, some (p.1, p.2), st.sentSizes⟩ := by
      simp [mainchan_terminal_size, hg]
    rw [hstep, h1, ih ⟨false, some (p.1, p.2), st.sentSizes⟩ rfl]
    rfl

/-- C5: a terminal resize requested before the PTY grant is never sent to
the peer; on the grant, exactly the most recent buffered size is sent,
exactly once; and once granted, every resize is forwarded immediately. -/
theorem mainchan_resize_buffering :
    (∀ l, (mcRun mainchanInit (resizes l)).sentSizes = []) ∧
    (∀ l p,
      (mcRun mainchanInit (resizes (l ++ [p]) ++ [MCEvent.ptyGrant])).sentSizes = [p]) ∧
    (∀ st w h, st.ptyGranted = true →
      mainchan_terminal_size st w h = { st with sentSizes := st.sentSizes ++ [(w, h)] }) := by
  refine ⟨fun l => ?_, fun l p => ?_, fun st w h hg => ?_⟩
  · rw [mcRun_resizes l mainchanInit rfl]
    rfl
  · have hsplit : mcRun mainchanInit (resizes (l ++ [p]) ++ [MCEvent.ptyGrant]) =
        mcStep (mcRun mainchanInit (resizes (l ++ [p]))) MCEvent.ptyGrant := by
      simp [mcRun, List.foldl_append]
    rw [hsplit, mcRun_resizes (l ++ [p]) mainchanInit rfl, lastD_append_singleton]
    rfl
  · simp [mainchan_terminal_size, hg]

/-- Witness for mainchan_resize_buffering at a concrete granted state. -/
theorem mainchan_resize_buffering_witness :
    (MainchanState.mk true none []).ptyGranted = true ∧
    mainchan_terminal_size (MainchanState.mk true none []) 80 24 =
      MainchanState.mk true none [(80, 24)] :=
  ⟨rfl, mainchan_resize_buffering.2.2 (MainchanState.mk true none []) 80 24 rfl⟩

/-! ### Theorems: mainchan_get_specials calling convention -/

/-- C9 counterexample: mainchan_get_specials does not return the specials
sequence by value - its declared return type in src/sshchan.h is void,
and it takes an add_special_fn_t callback instead. -/
theorem mainchan_get_specials_not_by_value :
    returnsByValue mainchan_get_specials_decl = false := by
  rfl

/-- C9 amended: MainChannel exposes the currently valid special commands
by pushing (label, code) pairs through the caller-supplied
add_special_fn_t callback parameter of mainchan_get_specials; the
function returns void, so the sequence is not returned by value. -/
theorem mainchan_get_specials_pushes_callback :
    takesCallback mainchan_get_specials_decl = true ∧
    mainchan_get_specials_decl.ret = CType.void ∧
    CType.funPtrTo "add_special_fn_t" ∈ mainchan_get_specials_decl.params := by
  refine ⟨rfl, rfl, ?_⟩
  decide

end SshChan
